import Mathlib

/-!
# A shallow embedding of the `bad-lang-2` execution engine

This file embeds the tree-walking interpreter of the repository
(`src/runtime/mod.rs`, `src/token/base.rs`, `src/token/logic.rs`,
`src/token/comparison.rs`, `src/token/runtime/thread.rs`) in Lean 4 and
proves properties of the embedded engine.

Modelling conventions, chosen once and used throughout:

* Every `Arc<RwLock<ExpressionToken>>` cell is an index (`Nat`) into an
  explicit heap (`List ExpressionToken`).  Two holders of the same index
  alias the same mutable cell, exactly as two clones of one `Arc` do.
* `HashMap<String, _>` becomes an association list with unique keys
  (insertion removes the old binding first); `HashSet<String>` becomes a
  duplicate-free list.  All observable operations (`get`, `insert`,
  `contains`, iteration guarded by a `contains_key` check) are
  order-insensitive on such lists, so the unspecified iteration order of
  the Rust hash containers is immaterial.
* `Vec` of scopes: the Rust code pushes/pops at the *end* and walks with
  `.iter().rev()`; the embedding keeps the innermost frame at the *head*
  of the list, so walking is plain left-to-right recursion.
* Numbers: the source stores `f64`; the embedding uses `Int`.  Every
  property proved here exercises numbers only at integral values, where
  Rust renders `1.0_f64` as `"1"` just as `Int` renders `1`.
* Nontermination (the source `loop {}`) is handled by a fuel parameter;
  running out of fuel is the distinct outcome `ExecResult.fuelOut`.
* A Rust `panic!` / `.unwrap()` on `None` / out-of-bounds index becomes
  the absorbing outcome `ExecResult.panicked`.  Reaching the native
  standard-library bridge (`runtime::run`) becomes the absorbing outcome
  `ExecResult.native`; the native handlers themselves are outside the
  embedded fragment (the thread-spawn seeding of
  `token/runtime/thread.rs`, which the claims do need, is modelled
  separately as `threadLaunch`).
* `RwLock::read()/write()` always succeed in a single engine instance
  (no lock poisoning, no overlapping borrow in the modelled fragment),
  so `try_read()` is modelled as succeeding.
* `println!` diagnostics are collected in `Runtime.output`.
* The `ExpressionToken::Math` variant (a formula of the external `meval`
  crate) is outside the embedded fragment; no claim exercises it.
-/

namespace BadLang

/-- `NumOperation` from `src/token/logic.rs`. -/
inductive NumOperation where
  | add
  | sub
  | mul
  | div
deriving DecidableEq, Repr

/-- `ComparisonOperator` from `src/token/comparison.rs`. -/
inductive ComparisonOperator where
  | equals
  | notEquals
  | equalsStrict
  | notEqualsStrict
  | lessThan
  | lessThanEquals
  | greaterThan
  | greaterThanEquals
deriving DecidableEq, Repr

/-- `LetToken` from `src/token/logic.rs`: the `value` field is an
`Arc<RwLock<ExpressionToken>>`, i.e. a heap cell index here.  The three
flags are carried by the parser but never read by the engine. -/
structure LetTokenData where
  name : String
  is_const : Bool
  is_function : Bool
  is_class : Bool
  valueCell : Nat
deriving DecidableEq, Repr

mutual

/-- `ValueToken` from `src/token/base.rs`.  `Function`, `Class` and
`ClassInstance` carry their payloads inline; a `ClassInstance`'s `scope`
is its field map, whose entries are shared heap cells. -/
inductive ValueToken where
  | string (value : String)
  | number (value : Int)
  | boolean (value : Bool)
  | null
  | array (value : List ExpressionToken)
  | range (rangeStart rangeEnd : Nat)
  | buffer (value : List Nat)
  | nativeMemory (name : String)
  | function (name : String) (args : List String) (body : List Token)
  | classT (name : String) (args : List String) (body : List Token)
  | classInstance (clsName : String) (clsArgs : List String)
      (clsBody : List Token) (scope : List (String × Nat))

/-- `ExpressionToken` from `src/token/logic.rs` (without the external
`Math` variant).  `letE` is the variable-reference form: the engine's
`extract_value` only ever reads its `name`. -/
inductive ExpressionToken where
  | comparison (operator : ComparisonOperator)
      (left right : ExpressionToken)
  | returnE (value : ExpressionToken)
  | fnCall (name : String) (args : List ExpressionToken)
  | classInstantiation (clsName : String) (args : List ExpressionToken)
  | staticClassFnCall (clsName fnName : String)
      (args : List ExpressionToken)
  | classFnCall (instName fnName : String) (args : List ExpressionToken)
  | value (v : ValueToken)
  | letE (t : LetTokenData)

/-- `Token` from `src/token/mod.rs`. -/
inductive Token where
  | letT (t : LetTokenData)
  | letAssign (name : String) (value : ExpressionToken)
  | letAssignNum (name : String) (operation : NumOperation)
      (value : ExpressionToken)
  | fnCall (name : String) (args : List ExpressionToken)
  | staticClassFnCall (clsName fnName : String)
      (args : List ExpressionToken)
  | classFnCall (instName fnName : String) (args : List ExpressionToken)
  | loop (body : List Token)
  | breakT
  | returnT (value : ExpressionToken)
  | ifT (reversed : Bool) (condition : ExpressionToken)
      (body : List Token)

/-- `InsideToken` from `src/token/mod.rs`: the call-stack marker. -/
inductive InsideToken where
  | function (name : String) (args : List String) (body : List Token)
  | loop (body : List Token)
  | ifT (reversed : Bool) (condition : ExpressionToken)
      (body : List Token)
  | classT (name : String) (args : List String) (body : List Token)

end

/-- One lexical frame: a name-to-cell map (`HashMap<String, Arc<..>>`). -/
abbrev Frame := List (String × Nat)

/-- The cell heap: every `Arc<RwLock<ExpressionToken>>` in the program. -/
abbrev Heap := List ExpressionToken

/-- `HashMap::get`. -/
def frameGet (f : Frame) (name : String) : Option Nat :=
  match f with
  | [] => none
  | p :: rest => if p.1 = name then some p.2 else frameGet rest name

/-- Remove a key (helper keeping the association list duplicate-free). -/
def frameErase (f : Frame) (name : String) : Frame :=
  match f with
  | [] => []
  | p :: rest => if p.1 = name then frameErase rest name
                 else p :: frameErase rest name

/-- `HashMap::insert`. -/
def frameInsert (f : Frame) (name : String) (cell : Nat) : Frame :=
  (name, cell) :: frameErase f name

/-- `HashSet::contains`. -/
def setMem (l : List String) (n : String) : Bool :=
  match l with
  | [] => false
  | x :: r => if x = n then true else setMem r n

/-- `HashSet::insert`. -/
def setInsert (l : List String) (n : String) : List String :=
  if setMem l n then l else n :: l

/-- `HashSet::remove`. -/
def setRemove (l : List String) (n : String) : List String :=
  match l with
  | [] => []
  | x :: r => if x = n then setRemove r n else x :: setRemove r n

/-- Read a heap cell (`cell.read().unwrap()`). -/
def heapGet (h : Heap) (i : Nat) : Option ExpressionToken :=
  List.get? h i

/-- Overwrite a heap cell (`*cell.write().unwrap() = v`). -/
def heapSet (h : Heap) (i : Nat) (v : ExpressionToken) : Heap :=
  match h, i with
  | [], _ => []
  | _ :: rest, 0 => v :: rest
  | x :: rest, n + 1 => x :: heapSet rest n v

/-- Allocate a fresh cell (`Arc::new(RwLock::new(v))`); returns the new
heap and the fresh cell's index. -/
def heapAlloc (h : Heap) (v : ExpressionToken) : Heap × Nat :=
  (h ++ [v], h.length)

/-- `BaseToken::truthy` for every variant, `src/token/base.rs`.
`Array` and `Buffer` read their shared payload, carried inline here. -/
def ValueToken.truthy : ValueToken → Bool
  | .string s => !s.isEmpty
  | .number n => n != 0
  | .boolean b => b
  | .null => false
  | .array elems => !elems.isEmpty
  | .range _ _ => true
  | .buffer bytes => !bytes.isEmpty
  | .nativeMemory _ => true
  | .function _ _ _ => true
  | .classT _ _ _ => true
  | .classInstance _ _ _ _ => true

/-- `BufferToken`'s `PartialEq`, `src/token/base.rs` lines 242-280: the
two byte sequences are compared position-wise over `zip`, which stops at
the shorter sequence; lengths are never compared. -/
def bufferEq (a b : List Nat) : Bool :=
  (a.zip b).all fun p => p.1 == p.2

/-- `PartialEq` on `ValueToken` (strict equality `===`),
`src/token/base.rs` lines 509-526: same variant required; scalar
variants compare payloads; `Null == Null`; every composite variant
(`Array`, `Range`, `NativeMemory`, `Function`, `Class`,
`ClassInstance`) is never equal, except `Buffer`, which uses
`bufferEq`. -/
def strictEq : ValueToken → ValueToken → Bool
  | .string a, .string b => a == b
  | .number a, .number b => a == b
  | .boolean a, .boolean b => a == b
  | .null, .null => true
  | .buffer a, .buffer b => bufferEq a b
  | _, _ => false

/-- `" ".repeat(spaces)`. -/
def spacesStr (n : Nat) : String :=
  String.mk (List.replicate n ' ')

/-- One lowercase hex digit. -/
def hexDigit (n : Nat) : Char :=
  if n < 10 then Char.ofNat (48 + n) else Char.ofNat (87 + n)

/-- A byte as `format!("{byte:02x} ")` renders it (two lowercase hex
digits followed by a space). -/
def hexByte (b : Nat) : String :=
  String.mk [hexDigit (b / 16 % 16), hexDigit (b % 16), ' ']

mutual

/-- `BaseToken::value(spaces)`: the user-facing rendered form,
`src/token/base.rs`.  The heap is needed for `Range`, whose bounds live
in shared cells; since a range bound can itself hold a range, rendering
can chase heap cells, so a fuel parameter bounds that recursion (the
empty string at fuel 0 is reached only on cyclic range chains, where
the source itself would not terminate).  For `NativeMemory`,
`Function`, `Class` and `ClassInstance` the rendered form is the
`inspect()` debug form, as in the source. -/
def valueStr (h : Heap) : Nat → ValueToken → Nat → String
  | _, .string s, spaces => spacesStr spaces ++ s
  | _, .number n, spaces => spacesStr spaces ++ toString n
  | _, .boolean b, spaces =>
      spacesStr spaces ++ (if b then "true" else "false")
  | _, .null, spaces => spacesStr spaces ++ "null"
  | fuel, .array elems, spaces =>
      spacesStr spaces ++ "[\n" ++ arrayElemsStr h fuel elems (spaces + 2)
        ++ spacesStr spaces ++ "]"
  | fuel, .range lo hi, spaces =>
      rangeSideStr h fuel lo spaces ++ ".." ++ rangeSideStr h fuel hi spaces
  | _, .buffer bytes, spaces =>
      spacesStr spaces ++ String.join (bytes.map hexByte)
  | _, .nativeMemory name, _ =>
      "NativeMemory(" ++ name ++ ") \x7b <native> \x7d"
  | _, .function name args body, _ =>
      "Function(" ++ name ++ ": " ++ String.intercalate ", " args
        ++ ") \x7b <" ++ toString body.length ++ " tokens> \x7d"
  | _, .classT name _ _, _ => "Class(" ++ name ++ ") \x7b \x7d"
  | _, .classInstance clsName _ _ scope, _ =>
      "ClassInstance(" ++ clsName ++ ") \x7b "
        ++ toString scope.length ++ " variables \x7d"
termination_by fuel v spaces => (fuel, sizeOf v)
decreasing_by all_goals (simp_wf; omega)

/-- `ArrayToken::value`'s element loop: only `Value` nodes are
rendered, each followed by a newline. -/
def arrayElemsStr (h : Heap) : Nat → List ExpressionToken → Nat → String
  | _, [], _ => ""
  | fuel, e :: rest, spaces =>
      (match e with
       | .value v => valueStr h fuel v spaces ++ "\n"
       | _ => "")
        ++ arrayElemsStr h fuel rest spaces
termination_by fuel l spaces => (fuel, sizeOf l)
decreasing_by all_goals (simp_wf; omega)

/-- One side of `RangeToken::value`: the cell is rendered if it holds a
`Value` node, otherwise a placeholder string is used.  This is the one
place rendering chases a heap cell, so it consumes fuel. -/
def rangeSideStr (h : Heap) : Nat → Nat → Nat → String
  | 0, _, _ => ""
  | fuel + 1, cell, spaces =>
      match heapGet h cell with
      | some (.value v) => valueStr h fuel v spaces
      | _ => "<range expression>"
termination_by fuel cell spaces => (fuel, 0)
decreasing_by all_goals (simp_wf; omega)

end

/-- The rendered form used by loose equality (`==`):
`left.value() == right.value()` in
`Runtime::extract_value (Comparison)`.  The render fuel exceeds the
heap size, enough for every acyclic range chain. -/
def renderValue (h : Heap) (v : ValueToken) : String :=
  valueStr h (h.length + 1) v 0

/-- The static native-name list `runtime::FUNCTIONS`
(`src/token/runtime/mod.rs`): the concatenation of the per-module
lists, in registration order. -/
def FUNCTIONS : List String :=
  ["io#println", "io#inspect",
   "string#concat", "string#format", "string#len", "string#split",
   "string#trim", "string#to_number", "string#replace",
   "string#replacen", "string#index_of", "string#slice",
   "string#to_upper", "string#to_lower", "string#starts_with",
   "string#ends_with", "string#contains",
   "fs#readstr", "fs#readstr_until",
   "math#eval", "#=", "math#floor", "math#ceil", "math#round",
   "math#sqrt", "math#mod",
   "array#push", "array#pop", "array#len", "array#clone",
   "array#concat", "array#contains", "array#from", "array#get",
   "array#set",
   "#eq", "#lt", "#gt", "#and", "#or",
   "time#sleep", "time#now", "time#now_ms",
   "rng#rand", "rng#rand_range",
   "tcp#bind", "tcp#getconn", "tcp#readstr", "tcp#readbin",
   "tcp#write", "tcp#close",
   "thread#launch", "thread#join"]

/-- The engine state, `struct Runtime` in `src/runtime/mod.rs`, plus the
shared cell heap and the collected `println!` diagnostics.  The head of
`scopes` is the innermost frame (the last element of the source's
`Vec`). -/
structure Runtime where
  heap : Heap
  scopes : List Frame
  callStack : List InsideToken
  lookup_cache : Frame
  modified_vars : List String
  output : List String

/-- `Runtime::new`: one empty bottom frame, empty cache and dirty set. -/
def Runtime.new (heap : Heap) : Runtime :=
  { heap := heap, scopes := [[]], callStack := [], lookup_cache := [],
    modified_vars := [], output := [] }

/-- `Runtime::scope_set` (`src/runtime/mod.rs` lines 41-51): mark the
name dirty, update the cache entry, insert into the innermost frame.
The source unwraps a provably nonempty scope stack. -/
def Runtime.scope_set (rt : Runtime) (name : String) (cell : Nat) :
    Runtime :=
  { rt with
    modified_vars := setInsert rt.modified_vars name
    lookup_cache := frameInsert rt.lookup_cache name cell
    scopes :=
      match rt.scopes with
      | [] => []
      | f :: r => frameInsert f name cell :: r }

/-- The naive full walk over the frame stack, innermost to outermost:
the fallback loop of `Runtime::lookup_variable`, and the reference
semantics the lookup cache must agree with. -/
def walkScopes (scopes : List Frame) (name : String) : Option Nat :=
  match scopes with
  | [] => none
  | f :: r =>
      match frameGet f name with
      | some c => some c
      | none => walkScopes r name

/-- `Runtime::lookup_variable` (`src/runtime/mod.rs` lines 53-72):
cache-first when the name is not dirty; otherwise walk the frames,
repair the cache entry and clear the name's dirtiness.  Returns the
found cell and the updated state. -/
def Runtime.lookup_variable (rt : Runtime) (name : String) :
    Option Nat × Runtime :=
  match setMem rt.modified_vars name, frameGet rt.lookup_cache name with
  | false, some c => (some c, rt)
  | _, _ =>
      match walkScopes rt.scopes name with
      | some c =>
          (some c,
           { rt with
             lookup_cache := frameInsert rt.lookup_cache name c
             modified_vars := setRemove rt.modified_vars name })
      | none => (none, rt)

/-- `Runtime::rebuild_lookup_cache` (`src/runtime/mod.rs` lines 86-99):
flatten the frame stack innermost-first (first binding wins) and clear
the dirty set. -/
def rebuildCacheFrames (scopes : List Frame) : Frame :=
  scopes.foldl
    (fun cache f =>
      f.foldl
        (fun c p => if (frameGet c p.1).isSome then c else c ++ [p])
        cache)
    []

/-- `Runtime::rebuild_lookup_cache` applied to the state. -/
def Runtime.rebuild_lookup_cache (rt : Runtime) : Runtime :=
  { rt with
    lookup_cache := rebuildCacheFrames rt.scopes
    modified_vars := [] }

/-- `Runtime::scope_aggregate` (`src/runtime/mod.rs` lines 74-84):
return the cache unchanged when not forced, nothing dirty and the cache
nonempty; otherwise rebuild first. -/
def Runtime.scope_aggregate (rt : Runtime) (force : Bool) :
    Frame × Runtime :=
  if force = false ∧ rt.modified_vars = [] ∧ rt.lookup_cache ≠ [] then
    (rt.lookup_cache, rt)
  else
    let rt1 := rt.rebuild_lookup_cache
    (rt1.lookup_cache, rt1)

/-- `Runtime::scope_create`. -/
def Runtime.scope_create (rt : Runtime) : Runtime :=
  { rt with scopes := [] :: rt.scopes }

end BadLang

namespace BadLang

/-- The outcome of running a piece of the engine.  `out` is a normal
result (`Option<ExpressionToken>` / `Option<ValueToken>` in the
source); `panicked` is a Rust `panic!` (an `unwrap` of `None` or an
out-of-bounds index); `native` marks re-entry into the native
standard-library bridge, which is outside the embedded fragment;
`fuelOut` is fuel exhaustion, the embedding of nontermination. -/
inductive ExecResult (α : Type) where
  | out (a : α) (rt : Runtime)
  | panicked (msg : String) (rt : Runtime)
  | native (name : String) (rt : Runtime)
  | fuelOut

/-- Sequencing: continue on a normal outcome, absorb the rest. -/
def ExecResult.andThen (r : ExecResult α) (f : α → Runtime → ExecResult β) :
    ExecResult β :=
  match r with
  | .out a rt => f a rt
  | .panicked m rt => .panicked m rt
  | .native n rt => .native n rt
  | .fuelOut => .fuelOut

/-- `extract_value(..).unwrap()`: a `None` from `extract_value` panics
at the call site, as the source's `Option::unwrap` does. -/
def unwrapV (r : ExecResult (Option ValueToken))
    (f : ValueToken → Runtime → ExecResult β) : ExecResult β :=
  r.andThen fun v rt =>
    match v with
    | some v => f v rt
    | none => .panicked "called Option::unwrap on a None value" rt

/-- Outcome of the statement loop of a function body
(`src/runtime/mod.rs` lines 244-256): either the loop finished (or was
left by `break` on a `None` signal), or a `Return` expression was
produced. -/
inductive BodyOutcome where
  | finished
  | returned (e : ExpressionToken)

/-- Outcome of the statement loop of a taken `if` body
(`src/runtime/mod.rs` lines 165-181): fell through the end, saw a
`None` (break) signal, or saw a `Return`. -/
inductive IfOutcome where
  | finished
  | gotBreak
  | returned (e : ExpressionToken)

/-- `Some(ExpressionToken::Value(ValueToken::Null(..)))`, the engine's
incidental fallthrough result. -/
def nullE : ExpressionToken := .value .null

/-- Is there a `Loop` marker on the call stack?  (`Token::Break`,
`src/runtime/mod.rs` lines 189-195.) -/
def hasLoopMarker : List InsideToken → Bool
  | [] => false
  | .loop _ :: _ => true
  | _ :: rest => hasLoopMarker rest

/-- The in-place numeric update of `Token::LetAssignNum`
(`src/runtime/mod.rs` lines 420-433).  Division is exercised by no
property proved here (the source divides `f64`s). -/
def numOp (op : NumOperation) (a b : Int) : Int :=
  match op with
  | .add => a + b
  | .sub => a - b
  | .mul => a * b
  | .div => a / b

mutual

/-- `Runtime::execute` (`src/runtime/mod.rs` lines 105-449), fueled.
The result is `Some(expr)` for fallthrough (incidental `Null`) or a
`Return` expression, `none` for the break signal. -/
def execute : Nat → Runtime → Token → ExecResult (Option ExpressionToken)
  | 0, _, _ => .fuelOut
  | fuel + 1, rt, .letT lt =>
      -- lines 107-122: evaluate the RHS cell, no-op if the innermost
      -- frame already binds the name, else allocate a fresh cell
      (match heapGet rt.heap lt.valueCell with
       | none => .panicked "index out of bounds" rt
       | some e =>
          unwrapV (extract_value fuel rt e) fun value rt1 =>
            match rt1.scopes with
            | [] => .panicked "called Option::unwrap on a None value" rt1
            | f :: _ =>
                if (frameGet f lt.name).isSome then .out (some nullE) rt1
                else
                  let (h2, cid) := heapAlloc rt1.heap (.value value)
                  .out (some nullE)
                    (Runtime.scope_set { rt1 with heap := h2 } lt.name cid))
  | fuel + 1, rt, .loop body =>
      -- lines 123-152
      let rt1 := { rt with callStack := .loop body :: rt.callStack }
      (runLoop fuel rt1.scope_create body).andThen fun _ rt2 =>
        let rt3 := { rt2 with scopes := rt2.scopes.tail,
                              callStack := rt2.callStack.tail }
        .out (some nullE) rt3.rebuild_lookup_cache
  | fuel + 1, rt, .ifT reversed condition body =>
      -- lines 153-188
      let rt1 :=
        { rt with callStack := .ifT reversed condition body :: rt.callStack }
      unwrapV (extract_value fuel rt1 condition) fun cond rt2 =>
        if (reversed && !cond.truthy) || (!reversed && cond.truthy) then
          (runIfBody fuel rt2.scope_create body).andThen fun outc rt3 =>
            match outc with
            | .gotBreak =>
                let rt4 := { rt3 with scopes := rt3.scopes.tail,
                                      callStack := rt3.callStack.tail }
                .out none rt4.rebuild_lookup_cache
            | .returned r =>
                let rt4 := { rt3 with scopes := rt3.scopes.tail,
                                      callStack := rt3.callStack.tail }
                .out (some r) rt4.rebuild_lookup_cache
            | .finished =>
                let rt4 :=
                  ({ rt3 with scopes := rt3.scopes.tail
                   } : Runtime).rebuild_lookup_cache
                .out (some nullE)
                  { rt4 with callStack := rt4.callStack.tail }
        else
          .out (some nullE) { rt2 with callStack := rt2.callStack.tail }
  | _ + 1, rt, .breakT =>
      -- lines 189-195: yield the break signal only if a loop encloses
      if hasLoopMarker rt.callStack then .out none rt
      else .out (some nullE) rt
  | fuel + 1, rt, .returnT value =>
      -- lines 196-202
      unwrapV (extract_value fuel rt value) fun v rt1 =>
        .out (some (.returnE (.value v))) rt1
  | fuel + 1, rt, .fnCall name args =>
      -- lines 203-263
      if FUNCTIONS.contains name then .native name rt
      else
        let (fnVar, rt1) := rt.lookup_variable name
        match fnVar with
        | none => .out (some nullE) rt1
        | some cell =>
            -- try_read (lines 218-222) succeeds in this fragment
            match heapGet rt1.heap cell with
            | none => .panicked "index out of bounds" rt1
            | some e =>
                unwrapV (extract_value fuel rt1 e) fun fv rt2 =>
                  match fv with
                  | .function fname fargs fbody =>
                      let rt3 :=
                        ({ rt2 with callStack :=
                            .function fname fargs fbody :: rt2.callStack
                         } : Runtime).scope_create
                      (bindParams fuel rt3 fargs args 0 false).andThen
                        fun _ rt4 =>
                        (runFnBody fuel rt4 fbody).andThen fun outc rt5 =>
                          let rt6 :=
                            ({ rt5 with scopes := rt5.scopes.tail,
                                        callStack := rt5.callStack.tail
                             } : Runtime).rebuild_lookup_cache
                          match outc with
                          | .returned r => .out (some r) rt6
                          | .finished => .out (some nullE) rt6
                  | _ => .out (some nullE) rt2
  | fuel + 1, rt, .staticClassFnCall clsName fnName args =>
      -- lines 264-324: the frame created for the class body (line 271)
      -- is never popped
      let (clsVar, rt1) := rt.lookup_variable clsName
      match clsVar with
      | none => .out (some nullE) rt1
      | some cell =>
          match heapGet rt1.heap cell with
          | none => .panicked "index out of bounds" rt1
          | some e =>
              unwrapV (extract_value fuel rt1 e) fun cv rt2 =>
                match cv with
                | .classT _ _ cbody =>
                    (execDiscard fuel rt2.scope_create cbody).andThen
                      fun _ rt3 =>
                      let (fnVar, rt4) := rt3.lookup_variable fnName
                      match fnVar with
                      | none => .out (some nullE) rt4
                      | some fcell =>
                          match heapGet rt4.heap fcell with
                          | none => .panicked "index out of bounds" rt4
                          | some fe =>
                              unwrapV (extract_value fuel rt4 fe)
                                fun fv rt5 =>
                                match fv with
                                | .function fname fargs fbody =>
                                    let rt6 :=
                                      ({ rt5 with callStack :=
                                          .function fname fargs fbody ::
                                            rt5.callStack
                                       } : Runtime).scope_create
                                    (bindParams fuel rt6 fargs args 0
                                        false).andThen fun _ rt7 =>
                                      (runFnBody fuel rt7 fbody).andThen
                                        fun outc rt8 =>
                                        let rt9 :=
                                          ({ rt8 with
                                             scopes := rt8.scopes.tail,
                                             callStack :=
                                               rt8.callStack.tail
                                           } : Runtime).rebuild_lookup_cache
                                        match outc with
                                        | .returned r => .out (some r) rt9
                                        | .finished =>
                                            .out (some nullE) rt9
                                | _ => .out (some nullE) rt5
                | _ => .out (some nullE) rt2
  | fuel + 1, rt, .classFnCall instName fnName args =>
      -- lines 325-397: the frame created for the instance's field map
      -- (line 332) is never popped
      let (instVar, rt1) := rt.lookup_variable instName
      match instVar with
      | none => .out (some nullE) rt1
      | some cell =>
          match heapGet rt1.heap cell with
          | none => .panicked "index out of bounds" rt1
          | some e =>
              unwrapV (extract_value fuel rt1 e) fun iv rt2 =>
                match iv with
                | .classInstance cn ca cb iscope =>
                    let rt3 := rt2.scope_create
                    -- scopes.last_mut().extend(instance.scope.clone())
                    let rt4 :=
                      { rt3 with scopes :=
                          match rt3.scopes with
                          | [] => []
                          | f :: r =>
                              (iscope.foldl
                                (fun (fr : Frame) (p : String × Nat) =>
                                  frameInsert fr p.1 p.2) f)
                                :: r }
                    let (fnVar, rt5) := rt4.lookup_variable fnName
                    match fnVar with
                    | none => .out (some nullE) rt5
                    | some fcell =>
                        match heapGet rt5.heap fcell with
                        | none => .panicked "index out of bounds" rt5
                        | some fe =>
                            unwrapV (extract_value fuel rt5 fe)
                              fun fv rt6 =>
                              match fv with
                              | .function fname fargs fbody =>
                                  let rt7 :=
                                    ({ rt6 with callStack :=
                                        .function fname fargs fbody ::
                                          rt6.callStack
                                     } : Runtime).scope_create
                                  (bindParams fuel rt7 fargs args 0
                                      true).andThen fun _ rt8 =>
                                    let (h9, scell) :=
                                      heapAlloc rt8.heap
                                        (.value
                                          (.classInstance cn ca cb iscope))
                                    let rt9 :=
                                      Runtime.scope_set
                                        { rt8 with heap := h9 } "self" scell
                                    (runFnBody fuel rt9 fbody).andThen
                                      fun outc rt10 =>
                                      let rt11 :=
                                        ({ rt10 with
                                           scopes := rt10.scopes.tail,
                                           callStack :=
                                             rt10.callStack.tail
                                         } : Runtime).rebuild_lookup_cache
                                      match outc with
                                      | .returned r => .out (some r) rt11
                                      | .finished =>
                                          .out (some nullE) rt11
                              | _ => .out (some nullE) rt6
                | _ => .out (some nullE) rt2
  | fuel + 1, rt, .letAssign name value =>
      -- lines 398-409: write through the resolved cell, mark dirty
      unwrapV (extract_value fuel rt value) fun v rt1 =>
        let (varOpt, rt2) := rt1.lookup_variable name
        match varOpt with
        | some cell =>
            .out (some nullE)
              { rt2 with heap := heapSet rt2.heap cell (.value v),
                         modified_vars := setInsert rt2.modified_vars name }
        | none => .out (some nullE) rt2
  | fuel + 1, rt, .letAssignNum name op value =>
      -- lines 410-443
      unwrapV (extract_value fuel rt value) fun v rt1 =>
        let (varOpt, rt2) := rt1.lookup_variable name
        match varOpt with
        | none => .out (some nullE) rt2
        | some cell =>
            match heapGet rt2.heap cell with
            | none => .panicked "index out of bounds" rt2
            | some (.value (.number m)) =>
                let h3 :=
                  match v with
                  | .number k =>
                      heapSet rt2.heap cell (.value (.number (numOp op m k)))
                  | _ => rt2.heap
                .out (some nullE)
                  { rt2 with heap := h3,
                             modified_vars :=
                               setInsert rt2.modified_vars name }
            | some _ =>
                .out (some nullE)
                  { rt2 with heap := heapSet rt2.heap cell (.value v),
                             modified_vars :=
                               setInsert rt2.modified_vars name }

/-- The parameter-binding loop of a call (`src/runtime/mod.rs` lines
231-240, 286-297 and, with `skipSelf`, 348-363): parameters are
enumerated with their index; a parameter whose (shifted) index has no
call argument is silently left unbound. -/
def bindParams : Nat → Runtime → List String → List ExpressionToken →
    Nat → Bool → ExecResult Unit
  | 0, _, _, _, _, _ => .fuelOut
  | _ + 1, rt, [], _, _, _ => .out () rt
  | fuel + 1, rt, p :: ps, callArgs, index, skipSelf =>
      if skipSelf && index == 0 then
        bindParams fuel rt ps callArgs (index + 1) skipSelf
      else
        match callArgs.get? (if skipSelf then index - 1 else index) with
        | some argExpr =>
            unwrapV (extract_value fuel rt argExpr) fun v rt1 =>
              let (h2, cid) := heapAlloc rt1.heap (.value v)
              bindParams fuel
                (Runtime.scope_set { rt1 with heap := h2 } p cid)
                ps callArgs (index + 1) skipSelf
        | none => bindParams fuel rt ps callArgs (index + 1) skipSelf

/-- The statement loop of a function body: `break` on a `None` signal,
early exit on a `Return`, every other signal is discarded. -/
def runFnBody : Nat → Runtime → List Token → ExecResult BodyOutcome
  | 0, _, _ => .fuelOut
  | _ + 1, rt, [] => .out .finished rt
  | fuel + 1, rt, t :: rest =>
      (execute fuel rt t).andThen fun sig rt1 =>
        match sig with
        | none => .out .finished rt1
        | some (.returnE r) => .out (.returned (.returnE r)) rt1
        | some _ => runFnBody fuel rt1 rest

/-- The statement loop of a taken `if` body. -/
def runIfBody : Nat → Runtime → List Token → ExecResult IfOutcome
  | 0, _, _ => .fuelOut
  | _ + 1, rt, [] => .out .finished rt
  | fuel + 1, rt, t :: rest =>
      (execute fuel rt t).andThen fun sig rt1 =>
        match sig with
        | none => .out .gotBreak rt1
        | some (.returnE r) => .out (.returned (.returnE r)) rt1
        | some _ => runIfBody fuel rt1 rest

/-- The infinite `loop { .. }` of `Token::Loop`: run one pass of the
body; stop if it broke, else clear the innermost frame, the dirty set
and the cache, and repeat. -/
def runLoop : Nat → Runtime → List Token → ExecResult Unit
  | 0, _, _ => .fuelOut
  | fuel + 1, rt, body =>
      (runLoopBody fuel rt body).andThen fun broke rt1 =>
        if broke then .out () rt1
        else
          let rt2 :=
            { rt1 with
              scopes :=
                match rt1.scopes with
                | [] => []
                | _ :: r => [] :: r
              modified_vars := []
              lookup_cache := [] }
          runLoop fuel rt2 body

/-- One pass over a loop body (`src/runtime/mod.rs` lines 130-137):
only a `None` signal (break) stops the pass; every `Some` signal —
including a `Return` — is discarded and the pass continues. -/
def runLoopBody : Nat → Runtime → List Token → ExecResult Bool
  | 0, _, _ => .fuelOut
  | _ + 1, rt, [] => .out false rt
  | fuel + 1, rt, t :: rest =>
      (execute fuel rt t).andThen fun sig rt1 =>
        match sig with
        | none => .out true rt1
        | some _ => runLoopBody fuel rt1 rest

/-- Statement loop that drops every signal (`self.execute(token);`):
used for a class body during static calls and instantiation. -/
def execDiscard : Nat → Runtime → List Token → ExecResult Unit
  | 0, _, _ => .fuelOut
  | _ + 1, rt, [] => .out () rt
  | fuel + 1, rt, t :: rest =>
      (execute fuel rt t).andThen fun _ rt1 => execDiscard fuel rt1 rest

/-- The constructor-argument loop of class instantiation
(`src/runtime/mod.rs` lines 593-600): call arguments are enumerated and
bound to `class.args[i]`, whose indexing panics when more arguments are
supplied than the class declares. -/
def ctorBind : Nat → Runtime → List String → List ExpressionToken →
    Nat → ExecResult Unit
  | 0, _, _, _, _ => .fuelOut
  | _ + 1, rt, _, [], _ => .out () rt
  | fuel + 1, rt, cargs, a :: rest, i =>
      unwrapV (extract_value fuel rt a) fun v rt1 =>
        match cargs.get? i with
        | none => .panicked "index out of bounds" rt1
        | some pname =>
            let (h2, cid) := heapAlloc rt1.heap (.value v)
            ctorBind fuel
              (Runtime.scope_set { rt1 with heap := h2 } pname cid)
              cargs rest (i + 1)

/-- `Runtime::extract_value` (`src/runtime/mod.rs` lines 451-643),
fueled.  A `none` result is the source's recoverable `None`. -/
def extract_value : Nat → Runtime → ExpressionToken →
    ExecResult (Option ValueToken)
  | 0, _, _ => .fuelOut
  | fuel + 1, rt, .comparison op l r =>
      -- lines 453-532
      unwrapV (extract_value fuel rt l) fun left rt1 =>
        unwrapV (extract_value fuel rt1 r) fun right rt2 =>
          match op with
          | .equals =>
              .out (some (.boolean
                (renderValue rt2.heap left == renderValue rt2.heap right)))
                rt2
          | .equalsStrict =>
              .out (some (.boolean (strictEq left right))) rt2
          | .notEquals =>
              .out (some (.boolean
                (renderValue rt2.heap left != renderValue rt2.heap right)))
                rt2
          | .notEqualsStrict =>
              .out (some (.boolean (!strictEq left right))) rt2
          | .greaterThan =>
              (match left, right with
               | .number a, .number b =>
                   .out (some (.boolean (decide (a > b)))) rt2
               | _, _ => .out (some (.boolean false)) rt2)
          | .greaterThanEquals =>
              (match left, right with
               | .number a, .number b =>
                   .out (some (.boolean (decide (a ≥ b)))) rt2
               | _, _ => .out (some (.boolean false)) rt2)
          | .lessThan =>
              (match left, right with
               | .number a, .number b =>
                   .out (some (.boolean (decide (a < b)))) rt2
               | _, _ => .out (some (.boolean false)) rt2)
          | .lessThanEquals =>
              (match left, right with
               | .number a, .number b =>
                   .out (some (.boolean (decide (a ≤ b)))) rt2
               | _, _ => .out (some (.boolean false)) rt2)
  | _ + 1, rt, .value v => .out (some v) rt
  | fuel + 1, rt, .letE lt =>
      -- lines 535-545: variable reference; an unbound name prints a
      -- diagnostic and yields the recoverable None
      let (varOpt, rt1) := Runtime.lookup_variable rt lt.name
      (match varOpt with
       | some cell =>
          (match heapGet rt1.heap cell with
           | some e => extract_value fuel rt1 e
           | none => .panicked "index out of bounds" rt1)
       | none =>
          .out none
            { rt1 with output :=
                rt1.output ++ ["variable " ++ lt.name ++ " not found"] })
  | fuel + 1, rt, .fnCall name args =>
      -- lines 571-580: run as a statement, treating a break signal as
      -- Null, then extract from the produced expression
      (execute fuel rt (.fnCall name args)).andThen fun sig rt1 =>
        extract_value fuel rt1 (match sig with | some e => e | none => nullE)
  | fuel + 1, rt, .classInstantiation clsName args =>
      -- lines 581-620: search the aggregate for the class, build the
      -- instance from the popped frame; note: no cache rebuild
      let (agg, rt1) := rt.scope_aggregate false
      (match frameGet agg clsName with
       | some cell =>
          (match heapGet rt1.heap cell with
           | some (.value (.classT cn cargs cbody)) =>
              (ctorBind fuel rt1.scope_create cargs args 0).andThen
                fun _ rt2 =>
                (execDiscard fuel rt2 cbody).andThen fun _ rt3 =>
                  match rt3.scopes with
                  | [] => .panicked "called Option::unwrap on a None value" rt3
                  | f :: rest =>
                      .out (some (.classInstance cn cargs cbody f))
                        { rt3 with scopes := rest }
           | _ =>
              .out none
                { rt1 with output :=
                    rt1.output ++ ["class " ++ clsName ++ " not found"] })
       | none =>
          .out none
            { rt1 with output :=
                rt1.output ++ ["class " ++ clsName ++ " not found"] })
  | fuel + 1, rt, .staticClassFnCall clsName fnName args =>
      -- lines 621-630
      (execute fuel rt (.staticClassFnCall clsName fnName args)).andThen
        fun sig rt1 =>
        extract_value fuel rt1 (match sig with | some e => e | none => nullE)
  | fuel + 1, rt, .classFnCall instName fnName args =>
      -- lines 631-640
      (execute fuel rt (.classFnCall instName fnName args)).andThen
        fun sig rt1 =>
        extract_value fuel rt1 (match sig with | some e => e | none => nullE)
  | fuel + 1, rt, .returnE r =>
      -- line 641
      extract_value fuel rt r

end

/-- `Runtime::run`: execute the token stream in order, ignoring every
result (`src/runtime/mod.rs` lines 33-39); panics still abort. -/
def Runtime.run (rt : Runtime) (fuel : Nat) (tokens : List Token) :
    ExecResult Unit :=
  execDiscard fuel rt tokens

end BadLang

namespace BadLang

/-- The environment-seeding construction of the native `thread#launch`
handler (`src/token/runtime/thread.rs` lines 26-88), up to the actual
OS-thread spawn: the parent snapshots its environment
(`scope_aggregate`, forced per the spawn contract), turns every
snapshot entry into a `Let` token whose value field IS the snapshotted
cell, appends a synthetic binding of the called function under the
name `main` plus a call of `main` on the pre-evaluated arguments, and
the new engine instance starts on the shared heap with `Runtime::new`'s
empty environment.  Returns the parent state after the `main`-cell
allocation, the child's token stream, and the child's initial state.
(The `is_function`/`is_class` flags are set from the snapshotted cell's
current content; the engine never reads them.) -/
def threadLaunch (rt : Runtime) (fnVal : ValueToken)
    (argVals : List ValueToken) : Runtime × List Token × Runtime :=
  let snap := rt.scope_aggregate true
  let varTokens := snap.1.map fun p =>
    Token.letT
      { name := p.1
        is_const := false
        is_function :=
          match heapGet snap.2.heap p.2 with
          | some (.value (.function _ _ _)) => true
          | _ => false
        is_class :=
          match heapGet snap.2.heap p.2 with
          | some (.value (.classT _ _ _)) => true
          | _ => false
        valueCell := p.2 }
  let alloc := heapAlloc snap.2.heap (.value fnVal)
  let rt2 := { snap.2 with heap := alloc.1 }
  let childTokens :=
    varTokens ++
      [Token.letT
        { name := "main", is_const := true, is_function := true,
          is_class := false, valueCell := alloc.2 },
       Token.fnCall "main" (argVals.map ExpressionToken.value)]
  (rt2, childTokens, Runtime.new rt2.heap)

/-- The signal a statement execution produced, when it completed
normally. -/
def outSignal (r : ExecResult (Option ExpressionToken)) :
    Option (Option ExpressionToken) :=
  match r with
  | .out s _ => some s
  | _ => none

/-- The engine state after a normal outcome. -/
def outState {α : Type} (r : ExecResult α) : Option Runtime :=
  match r with
  | .out _ rt => some rt
  | _ => none

/-! ## Claim C8 - truthiness totality -/

/-- The falsy set exactly as claim C8 words it: the empty string, the
number zero, boolean `false`, `null`, the empty array - and nothing
else (in particular no buffer). -/
def claimC8Falsy : ValueToken → Bool
  | .string s => s.isEmpty
  | .number n => n == 0
  | .boolean b => !b
  | .null => true
  | .array elems => elems.isEmpty
  | _ => false

/-- The amended falsy set: the claim's five falsy values plus the
empty buffer (`BufferToken::truthy` is `!is_empty()`,
`src/token/base.rs` lines 312-314). -/
def amendedFalsy : ValueToken → Bool
  | .string s => s.isEmpty
  | .number n => n == 0
  | .boolean b => !b
  | .null => true
  | .array elems => elems.isEmpty
  | .buffer bytes => bytes.isEmpty
  | _ => false

/-- C8, counterexample: the empty buffer is outside the claim's falsy
set, yet `isTruthy` returns `false` on it. -/
theorem c8_empty_buffer_falsy_cex :
    ValueToken.truthy (.buffer []) = false ∧
      claimC8Falsy (.buffer []) = false :=
  ⟨rfl, rfl⟩

/-- C8, amended: `isTruthy` returns `false` exactly for the empty
string, the number zero, boolean `false`, `null`, the empty array,
and - in addition to what the claim lists - the empty buffer; every
other value (nonempty buffers included, and every range, function,
class, class instance and native handle) is truthy. -/
theorem c8_truthiness_total (v : ValueToken) :
    ValueToken.truthy v = !amendedFalsy v := by
  cases v <;> simp [ValueToken.truthy, amendedFalsy, bne]

/-! ## Claim C7 - equality semantics -/

/-- The variant discriminant of a value: strict equality requires the
two sides to have the same one. -/
def variantTag : ValueToken → Nat
  | .string _ => 0
  | .number _ => 1
  | .boolean _ => 2
  | .null => 3
  | .array _ => 4
  | .range _ _ => 5
  | .buffer _ => 6
  | .nativeMemory _ => 7
  | .function _ _ _ => 8
  | .classT _ _ _ => 9
  | .classInstance _ _ _ _ => 10

/-- `bufferEq` compares exactly the common prefix: it is `true` iff
the two byte lists agree at every index below the shorter length. -/
theorem bufferEq_iff_common_prefix (a b : List Nat) :
    bufferEq a b = true ↔
      ∀ i, i < min a.length b.length → a.get? i = b.get? i := by
  induction a generalizing b with
  | nil => simp [bufferEq]
  | cons x xs ih =>
      cases b with
      | nil => simp [bufferEq]
      | cons y ys =>
          have hstep : bufferEq (x :: xs) (y :: ys) =
              ((x == y) && bufferEq xs ys) := by
            simp [bufferEq]
          rw [hstep, Bool.and_eq_true]
          constructor
          · rintro ⟨hxy, hrest⟩ i hi
            cases i with
            | zero =>
                have hxy2 : x = y := by simpa using hxy
                simp [hxy2]
            | succ j =>
                have hj : j < min xs.length ys.length := by
                  simp only [List.length_cons] at hi
                  omega
                simpa using (ih ys).mp hrest j hj
          · intro hall
            constructor
            · have h0 := hall 0 (by simp only [List.length_cons]; omega)
              simp at h0
              simpa using h0
            · refine (ih ys).mpr fun j hj => ?_
              have hstepj := hall (j + 1)
                (by simp only [List.length_cons]; omega)
              simpa using hstepj

/-- C7, counterexample: two buffers of different lengths whose common
prefix agrees.  The code's strict equality (`BufferToken`'s
`PartialEq` zips the byte sequences, never comparing lengths) calls
them equal, and the engine's `===` produces `true` on them, while the
claim demands byte-for-byte equality including equal length. -/
theorem c7_buffer_length_cex :
    strictEq (.buffer [0]) (.buffer [0, 1]) = true ∧
      ([0] : List Nat) ≠ [0, 1] ∧
      extract_value 3 (Runtime.new [])
          (.comparison .equalsStrict (.value (.buffer [0]))
            (.value (.buffer [0, 1]))) =
        .out (some (.boolean true)) (Runtime.new []) :=
  ⟨rfl, by decide, rfl⟩

/-- C7, amended: loose equality (`==`) of two values compares their
rendered string forms; strict equality (`===`) requires the same
variant; the composite kinds (array, range, handle, function, class,
instance) are never strict-equal; and two buffers are strict-equal iff
their byte sequences agree at every position below the *shorter*
length - equal length is *not* required. -/
theorem c7_equality_semantics :
    (∀ (fuel : Nat) (rt : Runtime) (l r : ValueToken),
        extract_value (fuel + 2) rt
            (.comparison .equals (.value l) (.value r)) =
          .out (some (.boolean
            (renderValue rt.heap l == renderValue rt.heap r))) rt) ∧
    (∀ v w : ValueToken,
        variantTag v ≠ variantTag w → strictEq v w = false) ∧
    (∀ v w : ValueToken,
        variantTag v ∈ ([4, 5, 7, 8, 9, 10] : List Nat) →
          strictEq v w = false) ∧
    (∀ a b : List Nat,
        strictEq (.buffer a) (.buffer b) = true ↔
          ∀ i, i < min a.length b.length → a.get? i = b.get? i) := by
  refine ⟨?_, ?_, ?_, ?_⟩
  · intro fuel rt l r
    simp [extract_value, unwrapV, ExecResult.andThen]
  · intro v w hvw
    cases v <;> cases w <;> first | rfl | (simp [variantTag] at hvw)
  · intro v w hv
    cases v <;> simp [variantTag] at hv <;> cases w <;> rfl
  · intro a b
    simpa [strictEq] using bufferEq_iff_common_prefix a b

/-- C7 witness: the hypotheses of the amended theorem discharged at
concrete inputs - a string and a number have different variants and
are not strict-equal, an array is composite and never strict-equal,
and, through the first conjunct, the engine's loose `==` on the
literals `"1"` and `1` renders both sides as `"1"` and yields
`true`. -/
theorem c7_equality_semantics_witness :
    strictEq (.string "1") (.number 1) = false ∧
      strictEq (.array []) (.array []) = false ∧
      extract_value 2 (Runtime.new [])
          (.comparison .equals (.value (.string "1"))
            (.value (.number 1))) =
        .out (some (.boolean true)) (Runtime.new []) := by
  refine ⟨c7_equality_semantics.2.1 (.string "1") (.number 1) (by decide),
          c7_equality_semantics.2.2.1 (.array []) (.array [])
            (by decide), ?_⟩
  have h := c7_equality_semantics.1 0 (Runtime.new [])
    (.string "1") (.number 1)
  have hs : renderValue (Runtime.new []).heap (ValueToken.string "1") =
      "1" := by
    simp [renderValue, valueStr, spacesStr, Runtime.new]
  have hn : renderValue (Runtime.new []).heap (ValueToken.number 1) =
      "1" := by
    simp [renderValue, valueStr, spacesStr, Runtime.new]
    rfl
  rw [h, hs, hn]
  simp

/-! ## Claim C4 - Return and loops -/

set_option maxHeartbeats 1000000 in
/-- C4, counterexample: a loop whose body yields a `Return` signal does
not stop - `Token::Loop` only checks `is_none()` (the break signal), so
with body `[return 1]` the loop spins until fuel runs out, and with
body `[return 1, break]` the loop exits through the `break` and the
whole statement falls through with `Null`: the `Return(1)` signal is
discarded, not re-propagated. -/
theorem c4_return_does_not_stop_loop_cex :
    execute 8 (Runtime.new []) (.loop [.returnT (.value (.number 1))]) =
        .fuelOut ∧
      execute 8 (Runtime.new [])
          (.loop [.returnT (.value (.number 1)), .breakT]) =
        .out (some nullE) (Runtime.new []) :=
  ⟨rfl, rfl⟩

/-- C4, amended: a `Return(v)` signal produced by a statement of a loop
body does *not* stop the loop - the pass simply continues with the next
statement and the signal's payload is dropped; only the break signal
(`None`) stops a pass and the loop. -/
theorem c4_return_discarded_in_loop :
    (∀ (fuel : Nat) (rt rt1 : Runtime) (t : Token) (rest : List Token)
        (r : ExpressionToken),
        execute fuel rt t = .out (some (.returnE r)) rt1 →
          runLoopBody (fuel + 1) rt (t :: rest) =
            runLoopBody fuel rt1 rest) ∧
    (∀ (fuel : Nat) (rt rt1 : Runtime) (t : Token) (rest : List Token),
        execute fuel rt t = .out none rt1 →
          runLoopBody (fuel + 1) rt (t :: rest) = .out true rt1) := by
  constructor
  · intro fuel rt rt1 t rest r hx
    simp [runLoopBody, hx, ExecResult.andThen]
  · intro fuel rt rt1 t rest hx
    simp [runLoopBody, hx, ExecResult.andThen]

/-- C4 witness: the amended theorem applied to a concrete `return 1`
statement at the head of a loop-body pass. -/
theorem c4_return_discarded_in_loop_witness :
    runLoopBody 6 (Runtime.new [])
        [.returnT (.value (.number 1)), .breakT] =
      runLoopBody 5 (Runtime.new []) [.breakT] :=
  c4_return_discarded_in_loop.1 5 (Runtime.new []) (Runtime.new [])
    (.returnT (.value (.number 1))) [.breakT] (.value (.number 1)) rfl

/-! ## Claim C9 - redeclaration no-op -/

/-- C9: if the innermost frame already binds `lt.name`, a second `let`
for that name evaluates its right-hand side and then leaves the entire
engine state unchanged (`Token::Let` returns early before
`scope_set`, `src/runtime/mod.rs` lines 112-116) - so after
`let x = 1; let x = 2` in one block, `x` is still `1`, for every name
and every pair of values. -/
theorem c9_redeclaration_noop (fuel : Nat) (h : Heap) (f : Frame)
    (rest : List Frame) (cs : List InsideToken) (lc : Frame)
    (mv outp : List String) (lt : LetTokenData) (v : ValueToken)
    (hcell : heapGet h lt.valueCell = some (.value v))
    (hbound : (frameGet f lt.name).isSome = true) :
    execute (fuel + 2) ⟨h, f :: rest, cs, lc, mv, outp⟩ (.letT lt) =
      .out (some nullE) ⟨h, f :: rest, cs, lc, mv, outp⟩ := by
  simp only [execute, hcell, extract_value, unwrapV, ExecResult.andThen,
    hbound, if_true]

/-- C9 witness: with `x` bound in the innermost frame to cell 0
(holding `1`), executing `let x = 2` leaves the state unchanged and
`x` still resolves to `1`. -/
theorem c9_redeclaration_noop_witness :
    execute 7
        ⟨[.value (.number 1), .value (.number 2)], [[("x", 0)]], [], [],
          [], []⟩
        (.letT ⟨"x", false, false, false, 1⟩) =
      .out (some nullE)
        ⟨[.value (.number 1), .value (.number 2)], [[("x", 0)]], [], [],
          [], []⟩ ∧
    walkScopes [[("x", 0)]] "x" = some 0 ∧
    heapGet [ExpressionToken.value (.number 1), .value (.number 2)] 0 =
      some (.value (.number 1)) :=
  ⟨c9_redeclaration_noop 5 _ _ _ _ _ _ _ ⟨"x", false, false, false, 1⟩
      (.number 2) rfl rfl,
    rfl, rfl⟩

end BadLang

namespace BadLang

/-- The produced value of an expression evaluation, when it completed
normally. -/
def outValue (r : ExecResult (Option ValueToken)) :
    Option (Option ValueToken) :=
  match r with
  | .out v _ => some v
  | _ => none

/-! ## Claim C3 - unbound identifiers -/

set_option maxHeartbeats 1000000 in
/-- C3: evaluating an unbound free identifier prints the diagnostic and
produces the recoverable `None` (third conjunct) - but on the
right-hand side of a `let` and of an assignment that `None` hits the
call site's `.unwrap()` (`src/runtime/mod.rs` lines 109-110 and 399),
so the engine panics and aborts instead of substituting `Null` and
continuing. -/
theorem c3_unbound_identifier_panics :
    execute 4 (Runtime.new [.letE ⟨"x", false, false, false, 0⟩])
        (.letT ⟨"y", false, false, false, 0⟩) =
      .panicked "called Option::unwrap on a None value"
        { Runtime.new [.letE ⟨"x", false, false, false, 0⟩] with
          output := ["variable x not found"] } ∧
    execute 4 (Runtime.new [])
        (.letAssign "y" (.letE ⟨"x", false, false, false, 0⟩)) =
      .panicked "called Option::unwrap on a None value"
        { Runtime.new [] with output := ["variable x not found"] } ∧
    extract_value 4 (Runtime.new [])
        (.letE ⟨"x", false, false, false, 0⟩) =
      .out none
        { Runtime.new [] with output := ["variable x not found"] } :=
  ⟨rfl, rfl, rfl⟩

/-! ## Claim C1 - lookup-cache coherence -/

/-- C1 scenario: an outer binding `C` only; the class body is
`let x = 5; let y = x` - the reference to `x` repairs the cache entry
for `x` and clears its dirtiness while the constructor frame is live. -/
def c1Start : Runtime :=
  ⟨[.value (.classT "C" []
       [.letT ⟨"x", false, false, false, 1⟩,
        .letT ⟨"y", false, false, false, 2⟩]),
    .value (.number 5),
    .letE ⟨"x", false, false, false, 1⟩],
   [[("C", 0)]], [], [], [], []⟩

/-- The state after evaluating `new C()` from `c1Start`. -/
def c1After : Runtime :=
  match extract_value 10 c1Start (.classInstantiation "C" []) with
  | .out _ rt => rt
  | _ => Runtime.new []

set_option maxHeartbeats 1000000 in
/-- C1: after the class instantiation completes normally (first
conjunct), the name `x` is *not* dirty, yet the cache still maps it to
cell 3 of the popped constructor frame, so `resolve("x")` returns
`Some 3` while the naive full-stack walk returns `None`: the
class-instantiation pop (`src/runtime/mod.rs` line 606) rebuilds
nothing, violating the cache-coherence invariant. -/
theorem c1_cache_walk_divergence :
    (match extract_value 10 c1Start (.classInstantiation "C" []) with
     | .out (some (.classInstance _ _ _ _)) _ => true
     | _ => false) = true ∧
    setMem c1After.modified_vars "x" = false ∧
    frameGet c1After.lookup_cache "x" = some 3 ∧
    (c1After.lookup_variable "x").1 = some 3 ∧
    walkScopes c1After.scopes "x" = none :=
  ⟨rfl, rfl, rfl, rfl, rfl⟩

/-! ## Claim C5 - frame-stack balance -/

/-- C5, static scenario: `class C { fn m() {} }` bound at the bottom
frame; the call is `C::m()`. -/
def c5StaticStart : Runtime :=
  ⟨[.value (.classT "C" [] [.letT ⟨"m", false, true, false, 1⟩]),
    .value (.function "m" [] [])],
   [[("C", 0)]], [], [], [], []⟩

/-- The state after executing `C::m()` from `c5StaticStart`. -/
def c5StaticAfter : Runtime :=
  match execute 10 c5StaticStart (.staticClassFnCall "C" "m" []) with
  | .out _ rt => rt
  | _ => Runtime.new []

/-- C5, instance scenario: an instance `i` with field `f` and method
`m`; the call is `i.m()`. -/
def c5InstStart : Runtime :=
  ⟨[.value (.classInstance "C" [] [] [("f", 1), ("m", 2)]),
    .value (.number 7),
    .value (.function "m" ["self"] [])],
   [[("i", 0)]], [], [], [], []⟩

/-- The state after executing `i.m()` from `c5InstStart`. -/
def c5InstAfter : Runtime :=
  match execute 10 c5InstStart (.classFnCall "i" "m" []) with
  | .out _ rt => rt
  | _ => Runtime.new []

set_option maxHeartbeats 1000000 in
/-- C5: both method-call forms complete normally, yet the frame-stack
depth grows from 1 to 2 across the statement: the frame pushed for the
class body (`src/runtime/mod.rs` line 271) and the frame pushed for the
instance's field map (line 332) are never popped. -/
theorem c5_method_call_leaks_frame :
    outSignal (execute 10 c5StaticStart (.staticClassFnCall "C" "m" []))
        = some (some nullE) ∧
    c5StaticStart.scopes.length = 1 ∧
    c5StaticAfter.scopes.length = 2 ∧
    outSignal (execute 10 c5InstStart (.classFnCall "i" "m" []))
        = some (some nullE) ∧
    c5InstStart.scopes.length = 1 ∧
    c5InstAfter.scopes.length = 2 :=
  ⟨rfl, rfl, rfl, rfl, rfl, rfl⟩

/-! ## Claim C2 - thread spawn and cell sharing -/

/-- C2 scenario: the parent binds `x` to cell 0 (holding `1`) and `f`
to cell 1; `f`'s body assigns `x = 2`.  The parent spawns `f`. -/
def c2FnVal : ValueToken :=
  .function "f" [] [.letAssign "x" (.value (.number 2))]

/-- The parent engine state at spawn time. -/
def c2Parent : Runtime :=
  ⟨[.value (.number 1), .value c2FnVal],
   [[("x", 0), ("f", 1)]], [], [], [], []⟩

/-- The spawned child's state after running its seeded token stream to
completion on the shared heap. -/
def c2ChildAfter : Runtime :=
  match Runtime.run (threadLaunch c2Parent c2FnVal []).2.2 30
      (threadLaunch c2Parent c2FnVal []).2.1 with
  | .out _ rt => rt
  | _ => Runtime.new []

set_option maxHeartbeats 1000000 in
/-- C2: the forced snapshot maps `x` to the parent's cell 0 and the
seeding `Let` carries that very cell - but `Token::Let` evaluates the
cell's content and wraps it in a *fresh* cell
(`src/runtime/mod.rs` lines 118-121), so the child ends up binding `x`
to the new cell 3, not to cell 0.  The child's `x = 2` then writes
cell 3; the parent's cell 0 still holds `1` after the child ran to
completion: the mutation is not mutually visible. -/
theorem c2_spawn_cell_not_shared :
    frameGet (c2Parent.scope_aggregate true).1 "x" = some 0 ∧
    (match Runtime.run (threadLaunch c2Parent c2FnVal []).2.2 30
         (threadLaunch c2Parent c2FnVal []).2.1 with
     | .out _ _ => true
     | _ => false) = true ∧
    walkScopes c2ChildAfter.scopes "x" = some 3 ∧
    walkScopes c2ChildAfter.scopes "x" ≠
      frameGet (c2Parent.scope_aggregate true).1 "x" ∧
    heapGet c2ChildAfter.heap 0 = some (.value (.number 1)) ∧
    heapGet c2ChildAfter.heap 3 = some (.value (.number 2)) :=
  ⟨rfl, rfl, rfl, by decide, rfl, rfl⟩

/-! ## Claim C6 - missing-argument binding -/

/-- C6 scenario: `fn add(a, b) { return b }` with an *outer* `b` bound
to `99`; the call is `add(2)`. -/
def c6Start : Runtime :=
  ⟨[.value (.number 99),
    .value (.function "add" ["a", "b"]
       [.returnT (.letE ⟨"b", false, false, false, 0⟩)])],
   [[("b", 0), ("add", 1)]], [], [], [], []⟩

set_option maxHeartbeats 1000000 in
/-- C6, counterexample: were the missing trailing parameter `b` bound
to `Null` in the fresh call frame, `add(2)` would return `Null`;
instead the call returns `99` - the body's `b` fell through to the
outer binding because the parameter-binding loop skipped it entirely. -/
theorem c6_missing_arg_not_null_cex :
    outValue (extract_value 10 c6Start
        (.fnCall "add" [.value (.number 2)])) =
      some (some (.number 99)) ∧
    ValueToken.number 99 ≠ ValueToken.null :=
  ⟨rfl, by simp⟩

/-- C6, amended: a declared parameter whose index has no supplied
argument is not bound at all - from the first missing trailing
argument on, the binding loop leaves the engine state untouched, so
the call frame has no entry for the missing parameters (references to
them resolve through outer scopes, or fail). -/
theorem c6_missing_args_left_unbound
    (ps : List String) (callArgs : List ExpressionToken) (idx : Nat)
    (rt : Runtime) (fuel : Nat)
    (hidx : callArgs.length ≤ idx) (hfuel : ps.length ≤ fuel) :
    bindParams (fuel + 1) rt ps callArgs idx false = .out () rt := by
  induction ps generalizing idx rt fuel with
  | nil => simp [bindParams]
  | cons p ps ih =>
      have hget : callArgs.get? idx = none :=
        List.get?_eq_none.mpr hidx
      have hfuel1 : 1 ≤ fuel := by
        simp only [List.length_cons] at hfuel
        omega
      have hsplit : fuel = (fuel - 1) + 1 := by omega
      rw [hsplit]
      simp only [bindParams, hget, Bool.false_and, Bool.false_eq_true,
        if_false, reduceIte]
      exact ih (idx + 1) rt (fuel - 1)
        (Nat.le_trans hidx (Nat.le_succ idx))
        (by simp only [List.length_cons] at hfuel; omega)

/-- C6 witness: the amended theorem at the `add(2)` shape - parameter
list tail `["b"]`, one supplied argument, index 1: no binding happens
and the state is unchanged. -/
theorem c6_missing_args_left_unbound_witness :
    bindParams 2 (Runtime.new []) ["b"] [.value (.number 2)] 1 false =
      .out () (Runtime.new []) :=
  c6_missing_args_left_unbound ["b"] [.value (.number 2)] 1
    (Runtime.new []) 1 (by decide) (by decide)

/-! ## Claim C10 - instance-method field sharing -/

/-- C10 scenario: an instance of class `K` bound as `i`, with field
`f` in cell 1 (holding any `oldv`) and method `m` in cell 2, the
method body being `f = newv`.  The instance's field map `[(f,1),(m,2)]`
is copied into the method's scope, entries aliasing the same cells. -/
def c10Start (cb : List Token) (oldv newv : ValueToken) : Runtime :=
  ⟨[.value (.classInstance "K" [] cb [("f", 1), ("m", 2)]),
    .value oldv,
    .value (.function "m" ["self"] [.letAssign "f" (.value newv)])],
   [[("i", 0)]], [], [], [], []⟩

set_option maxHeartbeats 1000000 in
/-- C10: `i.m()` completes normally and the assignment to the field
name `f` inside the method wrote through the aliased cell 1 - the
original instance's field cell - so after the call the instance (still
pointing at cell 1 through its unchanged field map, as does every
alias sharing that map) sees the new value, for any class body and any
pair of old/new field values. -/
theorem c10_instance_method_field_mutation (cb : List Token)
    (oldv newv : ValueToken) :
    outSignal (execute 9 (c10Start cb oldv newv)
        (.classFnCall "i" "m" [])) = some (some nullE) ∧
    (outState (execute 9 (c10Start cb oldv newv)
        (.classFnCall "i" "m" []))).map (fun rtF => heapGet rtF.heap 1) =
      some (some (.value newv)) ∧
    (outState (execute 9 (c10Start cb oldv newv)
        (.classFnCall "i" "m" []))).map (fun rtF => heapGet rtF.heap 0) =
      some (some (.value
        (.classInstance "K" [] cb [("f", 1), ("m", 2)]))) :=
  ⟨rfl, rfl, rfl⟩

end BadLang

namespace BadLang

/-- C8 witness: the amended truthiness theorem at a nonempty buffer. -/
theorem c8_truthiness_total_witness :
    ValueToken.truthy (.buffer [1]) = !amendedFalsy (.buffer [1]) :=
  c8_truthiness_total (.buffer [1])

set_option maxHeartbeats 1000000 in
/-- C10 witness: the field-mutation theorem at the concrete instance
with empty class body, old field value `7` and new field value `8`. -/
theorem c10_instance_method_field_mutation_witness :
    (outState (execute 9 (c10Start [] (.number 7) (.number 8))
        (.classFnCall "i" "m" []))).map (fun rtF => heapGet rtF.heap 1) =
      some (some (.value (.number 8))) :=
  (c10_instance_method_field_mutation [] (.number 7) (.number 8)).2.1

end BadLang
